import Mathlib

/-!
Shallow embedding of the REST route handlers of the repository
(`src/app/api/theaters/route.ts`, `src/app/api/theaters/[idTheater]/route.ts`,
`src/app/api/movies/[idMovie]/route.ts`, and the nested comment routes of
`src/unnamed/part_000`).

Modelling conventions:
* The document store (`sample_mflix`) is a `Store` of three lists of typed
  documents (`movies`, `theaters`, `comments`); Mongo returns documents in
  insertion order, `findOne`/`updateOne`/`deleteOne` act on the first match.
* An ObjectId is represented by its canonical (lower-case) 24-hex string;
  `new ObjectId(s)` on a validated string is modelled by `ObjectId.make`
  (lower-casing, since hex digits in an id string are case-insensitive at the
  byte level).
* Every handler returns a `HandlerResult`: the `NextResponse` produced (wire
  status plus JSON envelope), the store state after the call, and the list of
  collection operations (`find`/`findOne`/`insertOne`/`updateOne`/`deleteOne`)
  the call issued against the store.
* A store operation may throw; the `fail : Option String` argument of a
  handler is the throw oracle for its (single) collection operation: `some m`
  means the operation throws with message `m`, `none` means it succeeds.
  Acquiring the shared connection (`await clientPromise`) is modelled as
  non-failing: the driver/connection layer is an external collaborator
  explicitly excluded from the specification's scope.
* `request.json()` in the nested comment PUT is fallible code and is passed in
  as `body : Except String String` (the parsed `text` field, or the parse
  error's message), read at the same point of the control flow as in the
  source.
* Store-assigned ids (`insertOne`) and timestamps (`new Date()`) are
  passed in as parameters `newId` / `now`.
-/

/-- A hexadecimal digit, as in the id-format character class `[0-9a-fA-F]`. -/
def Char.isHexDigit (c : Char) : Bool :=
  c.isDigit || (('a' ≤ c) && (c ≤ 'f')) || (('A' ≤ c) && (c ≤ 'F'))

/-- Modelled from the spec: `ObjectId.isValid` comes from the external
`mongodb` driver, whose code is not part of this repository; the spec defines
the store identifier format as "a 24-character hexadecimal value". -/
def ObjectId.isValid (s : String) : Bool :=
  s.toList.length == 24 && s.toList.all Char.isHexDigit

/-- Models `new ObjectId(s)` for a validated id string: the canonical form of
the id (hex digits are case-insensitive, the canonical form is lower-case). -/
def ObjectId.make (s : String) : String :=
  String.mk (s.toList.map Char.toLower)

/-- A document of the `movies` collection, with the fields this repository
reads or writes. -/
structure Movie where
  _id : String
  title : String
  year : Int
  director : String
  genre : List String
  plot : String
deriving DecidableEq

/-- A document of the `theaters` collection, with the fields this repository
reads or writes. -/
structure Theater where
  _id : String
  theaterId : String
deriving DecidableEq

/-- A document of the `comments` collection, with the fields this repository
reads or writes. -/
structure Comment where
  _id : String
  name : String
  email : String
  text : String
  movie_id : String
  date : Nat
deriving DecidableEq

/-- The state of the `sample_mflix` database: the three collections touched by
the routes, each in insertion order. -/
structure Store where
  movies : List Movie
  theaters : List Theater
  comments : List Comment
deriving DecidableEq

/-- The payloads that appear in a `data` field of a response envelope. -/
inductive RData where
  | theaterList (ts : List Theater)
  | commentList (cs : List Comment)
  | movieDoc (m : Movie)
  | theaterDoc (t : Theater)
  | commentDoc (c : Comment)
  | insertedId (id : String)
  | updatedId (matchedCount modifiedCount : Nat)
deriving DecidableEq

/-- The JSON response envelope `\x7b status, message?, data?, error? \x7d`. -/
structure Envelope where
  status : Nat
  message : Option String := none
  data : Option RData := none
  error : Option String := none
deriving DecidableEq

/-- A transported HTTP response: wire-level status code plus JSON body. -/
structure HttpResponse where
  httpStatus : Nat
  body : Envelope
deriving DecidableEq

/-- Models `NextResponse.json(body)` with no `ResponseInit` argument: the
framework transports the body with HTTP status 200. -/
def NextResponse.json (e : Envelope) : HttpResponse :=
  ⟨200, e⟩

/-- A collection operation issued against the store, tagged with the
collection name. -/
inductive StoreOp where
  | find (coll : String)
  | findOne (coll : String)
  | insertOne (coll : String)
  | updateOne (coll : String)
  | deleteOne (coll : String)
deriving DecidableEq

/-- The observable outcome of one handler call: the response, the store state
after the call, and the collection operations issued. -/
structure HandlerResult where
  resp : HttpResponse
  store : Store
  ops : List StoreOp
deriving DecidableEq

/-- The envelope built by every `catch` block of the routes. -/
def serverError (m : String) : Envelope :=
  { status := 500, message := some "Internal Server Error", error := some m }

/-- Models `updateOne(filter, \x7b $set: ... \x7d)` on a list: rewrite the
first matching document with `f`, leave everything else unchanged. -/
def updateFirst (p : α → Bool) (f : α → α) : List α → List α
  | [] => []
  | x :: xs => if p x then f x :: xs else x :: updateFirst p f xs

/-- `matchedCount` of an `updateOne` (at most one document matched). -/
def matchedCount (p : α → Bool) (l : List α) : Nat :=
  if l.any p then 1 else 0

/-- `modifiedCount` of an `updateOne` with a `$set`: 1 when the first matched
document actually changes, 0 otherwise. -/
def modifiedCount [DecidableEq α] (p : α → Bool) (f : α → α) (l : List α) : Nat :=
  match l.find? p with
  | none => 0
  | some x => if f x = x then 0 else 1

/-- `deletedCount` of a `deleteOne` (at most one document removed). -/
def deletedCount (p : α → Bool) (l : List α) : Nat :=
  if l.any p then 1 else 0

/-! ## `src/app/api/theaters/route.ts` (collection endpoint) -/

/-- `GET /api/theaters`: `find(\x7b\x7d).limit(10).toArray()`, 200 with the
array, 500 on a store failure. -/
def theatersListGET (store : Store) (fail : Option String) : HandlerResult :=
  match fail with
  | some m => ⟨NextResponse.json (serverError m), store, [.find "theaters"]⟩
  | none =>
    let theaters := (store.theaters.filter (fun _ => true)).take 10
    ⟨NextResponse.json { status := 200, data := some (.theaterList theaters) },
     store, [.find "theaters"]⟩

/-- `POST /api/theaters`: method not supported; no store access. -/
def theatersCollectionPOST (store : Store) : HandlerResult :=
  ⟨NextResponse.json { status := 405, message := some "Method Not Allowed",
                       error := some "POST method is not supported" }, store, []⟩

/-- `PUT /api/theaters`: method not supported; no store access. -/
def theatersCollectionPUT (store : Store) : HandlerResult :=
  ⟨NextResponse.json { status := 405, message := some "Method Not Allowed",
                       error := some "PUT method is not supported" }, store, []⟩

/-- `DELETE /api/theaters`: method not supported; no store access. -/
def theatersCollectionDELETE (store : Store) : HandlerResult :=
  ⟨NextResponse.json { status := 405, message := some "Method Not Allowed",
                       error := some "DELETE method is not supported" }, store, []⟩

/-! ## `src/app/api/movies/[idMovie]/route.ts` (movie item endpoint) -/

/-- `GET /api/movies/\x7bidMovie\x7d`: validate the id, `findOne` by `_id`,
404 when absent, 200 with the document otherwise. -/
def moviesItemGET (idMovie : String) (store : Store) (fail : Option String) :
    HandlerResult :=
  if !(ObjectId.isValid idMovie) then
    ⟨NextResponse.json { status := 400, message := some "Invalid movie ID",
                         error := some "ID format is incorrect" }, store, []⟩
  else match fail with
    | some m => ⟨NextResponse.json (serverError m), store, [.findOne "movies"]⟩
    | none =>
      match store.movies.find? (fun mv => mv._id == ObjectId.make idMovie) with
      | none =>
        ⟨NextResponse.json { status := 404, message := some "Movie not found",
                             error := some "No movie found with the given ID" },
         store, [.findOne "movies"]⟩
      | some mv =>
        ⟨NextResponse.json { status := 200, data := some (.movieDoc mv) },
         store, [.findOne "movies"]⟩

/-- The hardcoded document inserted by `POST /api/movies/\x7bidMovie\x7d`,
with the store-assigned id. -/
def placeholderMovie (newId : String) : Movie :=
  { _id := newId, title := "test", year := 2025, director := "Thomas",
    genre := ["Sci-fi"], plot := "test test testt" }

/-- `POST /api/movies/\x7bidMovie\x7d`: the handler takes no parameters (the
path id and any request body are ignored); it inserts the hardcoded document
and returns 201 with the store-assigned id. -/
def moviesItemPOST (store : Store) (newId : String) (fail : Option String) :
    HandlerResult :=
  match fail with
  | some m => ⟨NextResponse.json (serverError m), store, [.insertOne "movies"]⟩
  | none =>
    ⟨NextResponse.json { status := 201, message := some "Movie successfully added",
                         data := some (.insertedId newId) },
     { store with movies := store.movies ++ [placeholderMovie newId] },
     [.insertOne "movies"]⟩

/-- The hardcoded `$set` payload of `PUT /api/movies/\x7bidMovie\x7d`. -/
def moviePutFields (mv : Movie) : Movie :=
  { mv with
    title := "Thomas2", year := 2014, director := "CThomas",
    genre := ["Sci-fi", "Adventure"],
    plot := "A group of explorers travel through a wormhole in space in an attempt to ensure humanity\x27s survival." }

/-- `PUT /api/movies/\x7bidMovie\x7d`: validate the id, `updateOne` by `_id`
with the hardcoded payload, 404 when nothing matched, 200 with the update
result otherwise. -/
def moviesItemPUT (idMovie : String) (store : Store) (fail : Option String) :
    HandlerResult :=
  if !(ObjectId.isValid idMovie) then
    ⟨NextResponse.json { status := 400, message := some "Invalid movie ID",
                         error := some "ID format is incorrect" }, store, []⟩
  else match fail with
    | some m => ⟨NextResponse.json (serverError m), store, [.updateOne "movies"]⟩
    | none =>
      let p := fun (mv : Movie) => mv._id == ObjectId.make idMovie
      let matched := matchedCount p store.movies
      let modified := modifiedCount p moviePutFields store.movies
      if matched = 0 then
        ⟨NextResponse.json { status := 404, message := some "Movie not found",
                             error := some "No movie to update with the given ID" },
         store, [.updateOne "movies"]⟩
      else
        ⟨NextResponse.json { status := 200, message := some "Movie successfully updated",
                             data := some (.updatedId matched modified) },
         { store with movies := updateFirst p moviePutFields store.movies },
         [.updateOne "movies"]⟩

/-- `DELETE /api/movies/\x7bidMovie\x7d`: validate the id, `deleteOne` by
`_id`, 404 when nothing was deleted, 200 otherwise. -/
def moviesItemDELETE (idMovie : String) (store : Store) (fail : Option String) :
    HandlerResult :=
  if !(ObjectId.isValid idMovie) then
    ⟨NextResponse.json { status := 400, message := some "Invalid movie ID",
                         error := some "ID format is incorrect" }, store, []⟩
  else match fail with
    | some m => ⟨NextResponse.json (serverError m), store, [.deleteOne "movies"]⟩
    | none =>
      let p := fun (mv : Movie) => mv._id == ObjectId.make idMovie
      if deletedCount p store.movies = 0 then
        ⟨NextResponse.json { status := 404, message := some "Movie not found",
                             error := some "No movie deleted" },
         store, [.deleteOne "movies"]⟩
      else
        ⟨NextResponse.json { status := 200, message := some "Movie successfully deleted" },
         { store with movies := store.movies.eraseP p }, [.deleteOne "movies"]⟩

/-! ## `src/app/api/theaters/[idTheater]/route.ts` (theater item endpoint) -/

/-- `GET /api/theaters/\x7bidTheater\x7d`: validate the id, `findOne` by
`_id`, 404 when absent, 200 with the document otherwise. -/
def theatersItemGET (idTheater : String) (store : Store) (fail : Option String) :
    HandlerResult :=
  if !(ObjectId.isValid idTheater) then
    ⟨NextResponse.json { status := 400, message := some "Invalid theater ID",
                         error := some "ID format is incorrect" }, store, []⟩
  else match fail with
    | some m => ⟨NextResponse.json (serverError m), store, [.findOne "theaters"]⟩
    | none =>
      match store.theaters.find? (fun t => t._id == ObjectId.make idTheater) with
      | none =>
        ⟨NextResponse.json { status := 404, message := some "Theater not found",
                             error := some "No theater found with the given ID" },
         store, [.findOne "theaters"]⟩
      | some t =>
        ⟨NextResponse.json { status := 200, data := some (.theaterDoc t) },
         store, [.findOne "theaters"]⟩

/-- The hardcoded document inserted by `POST /api/theaters/\x7bidTheater\x7d`,
with the store-assigned id. -/
def placeholderTheater (newId : String) : Theater :=
  { _id := newId, theaterId := "test" }

/-- `POST /api/theaters/\x7bidTheater\x7d`: the handler takes no parameters
(the path id and any request body are ignored); it inserts the hardcoded
document and returns 201 with the store-assigned id. -/
def theatersItemPOST (store : Store) (newId : String) (fail : Option String) :
    HandlerResult :=
  match fail with
  | some m => ⟨NextResponse.json (serverError m), store, [.insertOne "theaters"]⟩
  | none =>
    ⟨NextResponse.json { status := 201, message := some "Theater successfully added",
                         data := some (.insertedId newId) },
     { store with theaters := store.theaters ++ [placeholderTheater newId] },
     [.insertOne "theaters"]⟩

/-- The hardcoded `$set` payload of `PUT /api/theaters/\x7bidTheater\x7d`. -/
def theaterPutFields (t : Theater) : Theater :=
  { t with theaterId := "test2" }

/-- `PUT /api/theaters/\x7bidTheater\x7d`: validate the id, `updateOne` by
`_id` with the hardcoded payload, 404 when nothing matched, 200 with the
update result otherwise. -/
def theatersItemPUT (idTheater : String) (store : Store) (fail : Option String) :
    HandlerResult :=
  if !(ObjectId.isValid idTheater) then
    ⟨NextResponse.json { status := 400, message := some "Invalid theater ID",
                         error := some "ID format is incorrect" }, store, []⟩
  else match fail with
    | some m => ⟨NextResponse.json (serverError m), store, [.updateOne "theaters"]⟩
    | none =>
      let p := fun (t : Theater) => t._id == ObjectId.make idTheater
      let matched := matchedCount p store.theaters
      let modified := modifiedCount p theaterPutFields store.theaters
      if matched = 0 then
        ⟨NextResponse.json { status := 404, message := some "Theater not found",
                             error := some "No theater to update with the given ID" },
         store, [.updateOne "theaters"]⟩
      else
        ⟨NextResponse.json { status := 200, message := some "Theater successfully updated",
                             data := some (.updatedId matched modified) },
         { store with theaters := updateFirst p theaterPutFields store.theaters },
         [.updateOne "theaters"]⟩

/-- `DELETE /api/theaters/\x7bidTheater\x7d`: validate the id, `deleteOne` by
`_id`, 404 when nothing was deleted, 200 otherwise. -/
def theatersItemDELETE (idTheater : String) (store : Store) (fail : Option String) :
    HandlerResult :=
  if !(ObjectId.isValid idTheater) then
    ⟨NextResponse.json { status := 400, message := some "Invalid theater ID",
                         error := some "ID format is incorrect" }, store, []⟩
  else match fail with
    | some m => ⟨NextResponse.json (serverError m), store, [.deleteOne "theaters"]⟩
    | none =>
      let p := fun (t : Theater) => t._id == ObjectId.make idTheater
      if deletedCount p store.theaters = 0 then
        ⟨NextResponse.json { status := 404, message := some "Theater not found",
                             error := some "No theater deleted" },
         store, [.deleteOne "theaters"]⟩
      else
        ⟨NextResponse.json { status := 200, message := some "Theater successfully deleted" },
         { store with theaters := store.theaters.eraseP p }, [.deleteOne "theaters"]⟩

/-! ## `src/unnamed/part_000`, first file: nested comment item routes
`/api/movies/[idMovie]/comments/[idComment]/route.ts` -/

/-- The composite filter of the nested comment routes:
`\x7b _id: new ObjectId(idComment), movie_id: new ObjectId(idMovie) \x7d`. -/
def commentFilter (idMovie idComment : String) (c : Comment) : Bool :=
  c._id == ObjectId.make idComment && c.movie_id == ObjectId.make idMovie

/-- `GET /api/movies/\x7bidMovie\x7d/comments/\x7bidComment\x7d`: validate
both ids, `findOne` on the composite filter, 404 when absent, 200 with the
document otherwise. -/
def commentsItemGET (idMovie idComment : String) (store : Store)
    (fail : Option String) : HandlerResult :=
  if !(ObjectId.isValid idMovie) || !(ObjectId.isValid idComment) then
    ⟨NextResponse.json { status := 400, message := some "Invalid ID format" },
     store, []⟩
  else match fail with
    | some m => ⟨NextResponse.json (serverError m), store, [.findOne "comments"]⟩
    | none =>
      match store.comments.find? (commentFilter idMovie idComment) with
      | none =>
        ⟨NextResponse.json { status := 404, message := some "Comment not found" },
         store, [.findOne "comments"]⟩
      | some c =>
        ⟨NextResponse.json { status := 200, data := some (.commentDoc c) },
         store, [.findOne "comments"]⟩

/-- The hardcoded comment inserted by the nested comment POST, with the
store-assigned id and the `new Date()` timestamp. -/
def placeholderComment (idMovie newId : String) (now : Nat) : Comment :=
  { _id := newId, name := "test", email := "test", text := "test",
    movie_id := ObjectId.make idMovie, date := now }

/-- `POST /api/movies/\x7bidMovie\x7d/comments/\x7bidComment\x7d`: refuse
unless `idComment` is the literal string `"null"`, then validate `idMovie`,
insert the hardcoded comment and return 201 with the store-assigned id. -/
def commentsItemPOST (idMovie idComment : String) (store : Store)
    (newId : String) (now : Nat) (fail : Option String) : HandlerResult :=
  if idComment != "null" then
    ⟨NextResponse.json { status := 400,
                         message := some "POST must target /comments/null only" },
     store, []⟩
  else if !(ObjectId.isValid idMovie) then
    ⟨NextResponse.json { status := 400, message := some "Invalid movie ID format" },
     store, []⟩
  else match fail with
    | some m => ⟨NextResponse.json (serverError m), store, [.insertOne "comments"]⟩
    | none =>
      ⟨NextResponse.json { status := 201,
                           message := some "Comment created successfully",
                           data := some (.insertedId newId) },
       { store with comments := store.comments ++ [placeholderComment idMovie newId now] },
       [.insertOne "comments"]⟩

/-- `PUT /api/movies/\x7bidMovie\x7d/comments/\x7bidComment\x7d`: the handler
reads `\x7b text \x7d` from the request body first (so a body parse failure
throws before the ids are validated), then validates both ids, then
`updateOne` with `$set \x7b text \x7d` on the composite filter; 404 when
nothing matched, 200 otherwise. -/
def commentsItemPUT (idMovie idComment : String) (body : Except String String)
    (store : Store) (fail : Option String) : HandlerResult :=
  match body with
  | .error m => ⟨NextResponse.json (serverError m), store, []⟩
  | .ok t =>
    if !(ObjectId.isValid idMovie) || !(ObjectId.isValid idComment) then
      ⟨NextResponse.json { status := 400, message := some "Invalid ID format" },
       store, []⟩
    else match fail with
      | some m => ⟨NextResponse.json (serverError m), store, [.updateOne "comments"]⟩
      | none =>
        let p := commentFilter idMovie idComment
        if matchedCount p store.comments = 0 then
          ⟨NextResponse.json { status := 404, message := some "Comment not found" },
           store, [.updateOne "comments"]⟩
        else
          ⟨NextResponse.json { status := 200,
                               message := some "Comment updated successfully" },
           { store with
             comments := updateFirst p (fun c => { c with text := t }) store.comments },
           [.updateOne "comments"]⟩

/-- `DELETE /api/movies/\x7bidMovie\x7d/comments/\x7bidComment\x7d`: validate
both ids, `deleteOne` on the composite filter, 404 when nothing was deleted,
200 otherwise. -/
def commentsItemDELETE (idMovie idComment : String) (store : Store)
    (fail : Option String) : HandlerResult :=
  if !(ObjectId.isValid idMovie) || !(ObjectId.isValid idComment) then
    ⟨NextResponse.json { status := 400, message := some "Invalid ID format" },
     store, []⟩
  else match fail with
    | some m => ⟨NextResponse.json (serverError m), store, [.deleteOne "comments"]⟩
    | none =>
      let p := commentFilter idMovie idComment
      if deletedCount p store.comments = 0 then
        ⟨NextResponse.json { status := 404, message := some "Comment not found" },
         store, [.deleteOne "comments"]⟩
      else
        ⟨NextResponse.json { status := 200,
                             message := some "Comment deleted successfully" },
         { store with comments := store.comments.eraseP p }, [.deleteOne "comments"]⟩

/-! ## `src/unnamed/part_000`, second file: comments collection route
`/api/movies/[idMovie]/comments/route.ts` -/

/-- `GET /api/movies/\x7bidMovie\x7d/comments`: validate the movie id, then
`find(\x7b movie_id \x7d).toArray()` — note: no `limit` is applied — and
return 200 with every matching comment. -/
def commentsListGET (idMovie : String) (store : Store) (fail : Option String) :
    HandlerResult :=
  if !(ObjectId.isValid idMovie) then
    ⟨NextResponse.json { status := 400, message := some "Invalid movie ID",
                         error := some "ID format is incorrect" }, store, []⟩
  else match fail with
    | some m => ⟨NextResponse.json (serverError m), store, [.find "comments"]⟩
    | none =>
      let comments := store.comments.filter (fun c => c.movie_id == ObjectId.make idMovie)
      ⟨NextResponse.json { status := 200, data := some (.commentList comments) },
       store, [.find "comments"]⟩

/-- `POST` on the comments collection route: method not supported. -/
def commentsCollectionPOST (store : Store) : HandlerResult :=
  ⟨NextResponse.json { status := 405, message := some "Method Not Allowed",
                       error := some "POST method is not supported" }, store, []⟩

/-- `PUT` on the comments collection route: method not supported. -/
def commentsCollectionPUT (store : Store) : HandlerResult :=
  ⟨NextResponse.json { status := 405, message := some "Method Not Allowed",
                       error := some "PUT method is not supported" }, store, []⟩

/-- `DELETE` on the comments collection route: method not supported. -/
def commentsCollectionDELETE (store : Store) : HandlerResult :=
  ⟨NextResponse.json { status := 405, message := some "Method Not Allowed",
                       error := some "DELETE method is not supported" }, store, []⟩

/-- Length of the array carried in a `data` field (0 when the field is absent
or not an array). -/
def dataLen : Option RData → Nat
  | some (.theaterList ts) => ts.length
  | some (.commentList cs) => cs.length
  | _ => 0

/-! ## Concrete inputs used by counterexamples and witnesses -/

/-- A syntactically valid store id (24 hex characters). -/
def hexA : String := "aaaaaaaaaaaaaaaaaaaaaaaa"

/-- A second syntactically valid store id, distinct from `hexA`. -/
def hexB : String := "bbbbbbbbbbbbbbbbbbbbbbbb"

/-- A concrete movie document with id `hexA`. -/
def wMovie : Movie :=
  { _id := hexA, title := "m", year := 2000, director := "d", genre := [],
    plot := "p" }

/-- A concrete theater document with id `hexB`. -/
def wTheater : Theater :=
  { _id := hexB, theaterId := "Cinema" }

/-- A concrete comment with id `hexB` attached to movie `hexA`. -/
def wComment : Comment :=
  { _id := hexB, name := "n", email := "e", text := "old", movie_id := hexA,
    date := 5 }

/-- A concrete store holding one movie, one theater and one comment. -/
def wStore : Store := ⟨[wMovie], [wTheater], [wComment]⟩

/-- The empty store. -/
def emptyStore : Store := ⟨[], [], []⟩

/-- The i-th of eleven distinct valid comment ids. -/
def c1comment (i : Nat) : Comment :=
  { _id := "00000000000000000000000" ++ String.mk (Nat.toDigits 16 i),
    name := "n", email := "e", text := "t", movie_id := hexA, date := 0 }

/-- A store whose `comments` collection holds eleven comments, all attached to
the movie with id `hexA`. -/
def c1store : Store := ⟨[], [], (List.range 11).map c1comment⟩

/-! ## Helper lemmas -/

theorem any_eq_false_of_forall {p : α → Bool} {l : List α}
    (h : ∀ a ∈ l, p a = false) : l.any p = false := by
  simp only [List.any_eq_false]
  intro x hx
  simp [h x hx]

theorem updateFirst_append_match {p : α → Bool} {f : α → α} {l₁ l₂ : List α}
    {c : α} (h₁ : ∀ a ∈ l₁, p a = false) (hc : p c = true) :
    updateFirst p f (l₁ ++ c :: l₂) = l₁ ++ f c :: l₂ := by
  induction l₁ with
  | nil => simp [updateFirst, hc]
  | cons x xs ih =>
    have hx : p x = false := h₁ x (List.mem_cons_self x xs)
    simp only [List.cons_append, updateFirst, hx, Bool.false_eq_true, if_false]
    exact congrArg (x :: ·) (ih fun a ha => h₁ a (List.mem_cons_of_mem x ha))

theorem eraseP_beq_any_false (l : List Theater) (v : String)
    (h : (l.map Theater._id).Nodup) :
    ((l.eraseP (fun t => t._id == v)).any (fun t => t._id == v)) = false := by
  induction l with
  | nil => simp
  | cons x xs ih =>
    simp only [List.map_cons, List.nodup_cons] at h
    by_cases hx : (x._id == v) = true
    · have hv : x._id = v := by simpa using hx
      simp only [List.eraseP_cons, hx, cond_true]
      apply any_eq_false_of_forall
      intro a ha
      have : a._id ≠ v := by
        intro hav
        exact h.1 (hv ▸ hav ▸ List.mem_map_of_mem Theater._id ha)
      simpa using this
    · have hx' : (x._id == v) = false := by simpa using hx
      simp only [List.eraseP_cons, hx', cond_false, List.any_cons,
        Bool.or_eq_false_iff]
      exact ⟨trivial, ih h.2⟩

/-! ## Claim theorems -/

/-- C4: for every endpoint, every input and every outcome branch (200, 201,
400, 404, 405, 500 envelopes alike), the transported HTTP status code is 200;
the `status` field inside the JSON envelope never drives the wire-level
status. Every handler returns via `NextResponse.json(body)` with no
`ResponseInit`, which transports with HTTP 200. -/
theorem C4_wire_status_always_200 :
    (∀ store fail, (theatersListGET store fail).resp.httpStatus = 200) ∧
    (∀ store, (theatersCollectionPOST store).resp.httpStatus = 200) ∧
    (∀ store, (theatersCollectionPUT store).resp.httpStatus = 200) ∧
    (∀ store, (theatersCollectionDELETE store).resp.httpStatus = 200) ∧
    (∀ id store fail, (moviesItemGET id store fail).resp.httpStatus = 200) ∧
    (∀ store newId fail, (moviesItemPOST store newId fail).resp.httpStatus = 200) ∧
    (∀ id store fail, (moviesItemPUT id store fail).resp.httpStatus = 200) ∧
    (∀ id store fail, (moviesItemDELETE id store fail).resp.httpStatus = 200) ∧
    (∀ id store fail, (theatersItemGET id store fail).resp.httpStatus = 200) ∧
    (∀ store newId fail, (theatersItemPOST store newId fail).resp.httpStatus = 200) ∧
    (∀ id store fail, (theatersItemPUT id store fail).resp.httpStatus = 200) ∧
    (∀ id store fail, (theatersItemDELETE id store fail).resp.httpStatus = 200) ∧
    (∀ a b store fail, (commentsItemGET a b store fail).resp.httpStatus = 200) ∧
    (∀ a b store newId now fail,
      (commentsItemPOST a b store newId now fail).resp.httpStatus = 200) ∧
    (∀ a b body store fail,
      (commentsItemPUT a b body store fail).resp.httpStatus = 200) ∧
    (∀ a b store fail, (commentsItemDELETE a b store fail).resp.httpStatus = 200) ∧
    (∀ id store fail, (commentsListGET id store fail).resp.httpStatus = 200) ∧
    (∀ store, (commentsCollectionPOST store).resp.httpStatus = 200) ∧
    (∀ store, (commentsCollectionPUT store).resp.httpStatus = 200) ∧
    (∀ store, (commentsCollectionDELETE store).resp.httpStatus = 200) := by
  refine ⟨?_, ?_, ?_, ?_, ?_, ?_, ?_, ?_, ?_, ?_, ?_, ?_, ?_, ?_, ?_, ?_, ?_,
    ?_, ?_, ?_⟩ <;> intros <;>
    simp only [theatersListGET, theatersCollectionPOST, theatersCollectionPUT,
      theatersCollectionDELETE, moviesItemGET, moviesItemPOST, moviesItemPUT,
      moviesItemDELETE, theatersItemGET, theatersItemPOST, theatersItemPUT,
      theatersItemDELETE, commentsItemGET, commentsItemPOST, commentsItemPUT,
      commentsItemDELETE, commentsListGET, commentsCollectionPOST,
      commentsCollectionPUT, commentsCollectionDELETE, NextResponse.json,
      serverError] <;>
    (repeat' split) <;> rfl

/-- C2: the identifier validator modelled from the spec accepts a candidate
string exactly when it is a 24-character hexadecimal string, and whenever it
rejects, every id-based handler answers with the 400 invalid-format envelope
(the nested comment PUT shown with a successfully parsed body). -/
theorem C2_validator_guard (s : String) :
    (ObjectId.isValid s = true ↔
      (s.length = 24 ∧ ∀ c ∈ s.toList, c.isHexDigit = true)) ∧
    (ObjectId.isValid s = false → ∀ b t : String, ∀ store fail,
      (moviesItemGET s store fail).resp.body.status = 400 ∧
      (moviesItemPUT s store fail).resp.body.status = 400 ∧
      (moviesItemDELETE s store fail).resp.body.status = 400 ∧
      (theatersItemGET s store fail).resp.body.status = 400 ∧
      (theatersItemPUT s store fail).resp.body.status = 400 ∧
      (theatersItemDELETE s store fail).resp.body.status = 400 ∧
      (commentsItemGET s b store fail).resp.body.status = 400 ∧
      (commentsItemGET b s store fail).resp.body.status = 400 ∧
      (commentsItemPUT s b (Except.ok t) store fail).resp.body.status = 400 ∧
      (commentsItemPUT b s (Except.ok t) store fail).resp.body.status = 400 ∧
      (commentsItemDELETE s b store fail).resp.body.status = 400 ∧
      (commentsItemDELETE b s store fail).resp.body.status = 400 ∧
      (commentsItemPOST s "null" store b 0 fail).resp.body.status = 400 ∧
      (commentsListGET s store fail).resp.body.status = 400) := by
  constructor
  · have hlen : s.toList.length = s.length := rfl
    rw [ObjectId.isValid, Bool.and_eq_true, beq_iff_eq, hlen, List.all_eq_true]
  · intro h b t store fail
    refine ⟨?_, ?_, ?_, ?_, ?_, ?_, ?_, ?_, ?_, ?_, ?_, ?_, ?_, ?_⟩ <;>
      simp [moviesItemGET, moviesItemPUT, moviesItemDELETE, theatersItemGET,
        theatersItemPUT, theatersItemDELETE, commentsItemGET, commentsItemPUT,
        commentsItemDELETE, commentsItemPOST, commentsListGET,
        NextResponse.json, h]

/-- C2 witness: the validator rejects the concrete string `"xyz"` and the
movie item GET answers it with status 400. -/
theorem C2_validator_guard_witness :
    ObjectId.isValid "xyz" = false ∧
    (moviesItemGET "xyz" emptyStore none).resp.body.status = 400 :=
  ⟨by decide,
   ((C2_validator_guard "xyz").2 (by decide) hexB "t" emptyStore none).1⟩

/-- C3 counterexample: the claim fails as stated. For the request
`PUT /movies/x/comments/y` whose body does not parse as JSON, the path id
`"x"` fails the format check, yet the handler returns the 500 envelope (the
body is read before the ids are validated), not the 400 invalid-format
envelope. -/
theorem C3_counterexample_put_bad_body :
    ObjectId.isValid "x" = false ∧
    (commentsItemPUT "x" "y" (Except.error "Unexpected end of JSON input")
        emptyStore none).resp.body.status = 500 := by
  decide

/-- C3 (amended): for every id-based endpoint and every request whose path id
fails the format check, no collection operation is performed and the store is
unchanged; the handler returns the invalid-format 400 envelope — except the
nested comment PUT when the request body fails to parse, which returns the
500 envelope instead (its body read precedes id validation), still with no
collection operation. -/
theorem C3_amended_invalid_id_short_circuit (s b t m : String) (store : Store)
    (fail : Option String) (h : ObjectId.isValid s = false) :
    (moviesItemGET s store fail =
      ⟨NextResponse.json { status := 400, message := some "Invalid movie ID",
                           error := some "ID format is incorrect" }, store, []⟩) ∧
    (moviesItemPUT s store fail =
      ⟨NextResponse.json { status := 400, message := some "Invalid movie ID",
                           error := some "ID format is incorrect" }, store, []⟩) ∧
    (moviesItemDELETE s store fail =
      ⟨NextResponse.json { status := 400, message := some "Invalid movie ID",
                           error := some "ID format is incorrect" }, store, []⟩) ∧
    (theatersItemGET s store fail =
      ⟨NextResponse.json { status := 400, message := some "Invalid theater ID",
                           error := some "ID format is incorrect" }, store, []⟩) ∧
    (theatersItemPUT s store fail =
      ⟨NextResponse.json { status := 400, message := some "Invalid theater ID",
                           error := some "ID format is incorrect" }, store, []⟩) ∧
    (theatersItemDELETE s store fail =
      ⟨NextResponse.json { status := 400, message := some "Invalid theater ID",
                           error := some "ID format is incorrect" }, store, []⟩) ∧
    (commentsItemGET s b store fail =
      ⟨NextResponse.json { status := 400, message := some "Invalid ID format" },
       store, []⟩) ∧
    (commentsItemGET b s store fail =
      ⟨NextResponse.json { status := 400, message := some "Invalid ID format" },
       store, []⟩) ∧
    (commentsItemPUT s b (Except.ok t) store fail =
      ⟨NextResponse.json { status := 400, message := some "Invalid ID format" },
       store, []⟩) ∧
    (commentsItemPUT b s (Except.ok t) store fail =
      ⟨NextResponse.json { status := 400, message := some "Invalid ID format" },
       store, []⟩) ∧
    (commentsItemDELETE s b store fail =
      ⟨NextResponse.json { status := 400, message := some "Invalid ID format" },
       store, []⟩) ∧
    (commentsItemDELETE b s store fail =
      ⟨NextResponse.json { status := 400, message := some "Invalid ID format" },
       store, []⟩) ∧
    (commentsItemPOST s "null" store b 0 fail =
      ⟨NextResponse.json { status := 400, message := some "Invalid movie ID format" },
       store, []⟩) ∧
    (commentsItemPUT s b (Except.error m) store fail =
      ⟨NextResponse.json (serverError m), store, []⟩) := by
  refine ⟨?_, ?_, ?_, ?_, ?_, ?_, ?_, ?_, ?_, ?_, ?_, ?_, ?_, ?_⟩ <;>
    simp [moviesItemGET, moviesItemPUT, moviesItemDELETE, theatersItemGET,
      theatersItemPUT, theatersItemDELETE, commentsItemGET, commentsItemPUT,
      commentsItemDELETE, commentsItemPOST, h]

/-- C3 witness: the amended statement applied to the invalid path id `"zz"`
against the empty store. -/
theorem C3_amended_witness :
    ObjectId.isValid "zz" = false ∧
    (moviesItemGET "zz" emptyStore none =
      ⟨NextResponse.json { status := 400, message := some "Invalid movie ID",
                           error := some "ID format is incorrect" },
       emptyStore, []⟩) ∧
    (commentsItemPUT "zz" hexB (Except.error "boom") emptyStore none =
      ⟨NextResponse.json (serverError "boom"), emptyStore, []⟩) :=
  ⟨by decide,
   (C3_amended_invalid_id_short_circuit "zz" hexB "t" "boom" emptyStore none
      (by decide)).1,
   (C3_amended_invalid_id_short_circuit "zz" hexB "t" "boom" emptyStore none
      (by decide)).2.2.2.2.2.2.2.2.2.2.2.2.2⟩

/-- C1 counterexample: the claim fails as stated. The comments list endpoint
applies no cap: with eleven comments attached to movie `hexA` in the store,
`GET /movies/hexA/comments` answers 200 with an array of eleven documents,
more than the claimed maximum of 10. -/
theorem C1_counterexample_comments_uncapped :
    (commentsListGET hexA c1store none).resp.body.status = 200 ∧
    10 < dataLen (commentsListGET hexA c1store none).resp.body.data := by
  decide

/-- C1 (amended): `GET /theaters` returns at most 10 documents in the data
array for every store state and outcome, while
`GET /movies/\x7bidMovie\x7d/comments` applies no cap: on a valid id it
returns every comment of the store whose `movie_id` matches the path id. -/
theorem C1_amended_list_endpoints :
    (∀ store fail, dataLen (theatersListGET store fail).resp.body.data ≤ 10) ∧
    (∀ idMovie store, ObjectId.isValid idMovie = true →
      (commentsListGET idMovie store none).resp.body.data =
        some (.commentList
          (store.comments.filter (fun c => c.movie_id == ObjectId.make idMovie)))) := by
  constructor
  · intro store fail
    cases fail with
    | some m => simp [theatersListGET, NextResponse.json, serverError, dataLen]
    | none =>
      simp only [theatersListGET, NextResponse.json, dataLen]
      exact List.length_take_le 10 _
  · intro idMovie store h
    simp [commentsListGET, NextResponse.json, h]

/-- C1 witness: the amended comments-list statement applied to the valid id
`hexA` and the eleven-comment store. -/
theorem C1_amended_witness :
    ObjectId.isValid hexA = true ∧
    (commentsListGET hexA c1store none).resp.body.data =
      some (.commentList
        (c1store.comments.filter (fun c => c.movie_id == ObjectId.make hexA))) :=
  ⟨by decide, C1_amended_list_endpoints.2 hexA c1store (by decide)⟩

/-- C5: the nested comment POST inserts only behind the sentinel: when the
`idComment` path segment is not the literal string `"null"` it returns the
400 envelope and performs no store operation (whatever the movie id and
store); when it is `"null"` but `idMovie` fails the format check it returns
the 400 invalid-format envelope with no store operation; and when it is
`"null"` with a valid `idMovie` and the store succeeds it inserts the
hardcoded comment and returns 201 carrying the store-assigned id. -/
theorem C5_comment_post_sentinel (idMovie idComment newId : String) (now : Nat)
    (store : Store) (fail : Option String) :
    (idComment ≠ "null" →
      commentsItemPOST idMovie idComment store newId now fail =
        ⟨NextResponse.json { status := 400,
                             message := some "POST must target /comments/null only" },
         store, []⟩) ∧
    (idComment = "null" → ObjectId.isValid idMovie = false →
      commentsItemPOST idMovie idComment store newId now fail =
        ⟨NextResponse.json { status := 400,
                             message := some "Invalid movie ID format" },
         store, []⟩) ∧
    (idComment = "null" → ObjectId.isValid idMovie = true →
      commentsItemPOST idMovie idComment store newId now none =
        ⟨NextResponse.json { status := 201,
                             message := some "Comment created successfully",
                             data := some (.insertedId newId) },
         { store with
           comments := store.comments ++ [placeholderComment idMovie newId now] },
         [.insertOne "comments"]⟩) := by
  refine ⟨?_, ?_, ?_⟩
  · intro h
    simp [commentsItemPOST, h]
  · intro h hv
    subst h
    simp [commentsItemPOST, hv]
  · intro h hv
    subst h
    simp [commentsItemPOST, hv]

/-- C5 witness: the sentinel POST applied to the valid movie id `hexA` (201,
one inserted comment) and to the non-sentinel segment `"x"` (400, no store
operation). -/
theorem C5_comment_post_sentinel_witness :
    (commentsItemPOST hexA "null" emptyStore hexB 7 none =
      ⟨NextResponse.json { status := 201,
                           message := some "Comment created successfully",
                           data := some (.insertedId hexB) },
       { emptyStore with comments := [placeholderComment hexA hexB 7] },
       [.insertOne "comments"]⟩) ∧
    (commentsItemPOST hexA "x" emptyStore hexB 7 none =
      ⟨NextResponse.json { status := 400,
                           message := some "POST must target /comments/null only" },
       emptyStore, []⟩) :=
  ⟨(C5_comment_post_sentinel hexA "null" hexB 7 emptyStore none).2.2 rfl
      (by decide),
   (C5_comment_post_sentinel hexA "x" hexB 7 emptyStore none).1 (by decide)⟩

/-- C6: item-level POST on movies and on theaters takes neither the path id
nor a request body (the handlers are parameterless in the source, so both are
ignored by construction); on a successful store call each inserts exactly its
hardcoded placeholder document at the end of its collection, touches nothing
else, and returns the 201 envelope carrying the store-assigned inserted id. -/
theorem C6_item_post_placeholder (store : Store) (newId : String) :
    (moviesItemPOST store newId none =
      ⟨NextResponse.json { status := 201,
                           message := some "Movie successfully added",
                           data := some (.insertedId newId) },
       { store with movies := store.movies ++ [placeholderMovie newId] },
       [.insertOne "movies"]⟩) ∧
    (theatersItemPOST store newId none =
      ⟨NextResponse.json { status := 201,
                           message := some "Theater successfully added",
                           data := some (.insertedId newId) },
       { store with theaters := store.theaters ++ [placeholderTheater newId] },
       [.insertOne "theaters"]⟩) :=
  ⟨rfl, rfl⟩

/-- C7: for ids that pass the format check but match no document, the read,
update and delete operations answer 404 — item operations on movies and
theaters when no document carries the id, and the nested comment operations
when no comment matches the composite filter. -/
theorem C7_valid_absent_not_found :
    (∀ id store, ObjectId.isValid id = true →
      (∀ mv ∈ store.movies, (mv._id == ObjectId.make id) = false) →
      (moviesItemGET id store none).resp.body.status = 404 ∧
      (moviesItemPUT id store none).resp.body.status = 404 ∧
      (moviesItemDELETE id store none).resp.body.status = 404) ∧
    (∀ id store, ObjectId.isValid id = true →
      (∀ t ∈ store.theaters, (t._id == ObjectId.make id) = false) →
      (theatersItemGET id store none).resp.body.status = 404 ∧
      (theatersItemPUT id store none).resp.body.status = 404 ∧
      (theatersItemDELETE id store none).resp.body.status = 404) ∧
    (∀ a b txt store, ObjectId.isValid a = true → ObjectId.isValid b = true →
      (∀ c ∈ store.comments, commentFilter a b c = false) →
      (commentsItemGET a b store none).resp.body.status = 404 ∧
      (commentsItemPUT a b (Except.ok txt) store none).resp.body.status = 404 ∧
      (commentsItemDELETE a b store none).resp.body.status = 404) := by
  refine ⟨?_, ?_, ?_⟩
  · intro id store hv habs
    have hfind : store.movies.find? (fun mv => mv._id == ObjectId.make id) = none := by
      rw [List.find?_eq_none]
      intro x hx
      simp [habs x hx]
    have hany : store.movies.any (fun mv => mv._id == ObjectId.make id) = false :=
      any_eq_false_of_forall habs
    refine ⟨?_, ?_, ?_⟩
    · simp [moviesItemGET, hv, hfind, NextResponse.json]
    · simp [moviesItemPUT, hv, matchedCount, hany, NextResponse.json]
    · simp [moviesItemDELETE, hv, deletedCount, hany, NextResponse.json]
  · intro id store hv habs
    have hfind : store.theaters.find? (fun t => t._id == ObjectId.make id) = none := by
      rw [List.find?_eq_none]
      intro x hx
      simp [habs x hx]
    have hany : store.theaters.any (fun t => t._id == ObjectId.make id) = false :=
      any_eq_false_of_forall habs
    refine ⟨?_, ?_, ?_⟩
    · simp [theatersItemGET, hv, hfind, NextResponse.json]
    · simp [theatersItemPUT, hv, matchedCount, hany, NextResponse.json]
    · simp [theatersItemDELETE, hv, deletedCount, hany, NextResponse.json]
  · intro a b txt store hva hvb habs
    have hfind : store.comments.find? (commentFilter a b) = none := by
      rw [List.find?_eq_none]
      intro x hx
      simp [habs x hx]
    have hany : store.comments.any (commentFilter a b) = false :=
      any_eq_false_of_forall habs
    refine ⟨?_, ?_, ?_⟩
    · simp [commentsItemGET, hva, hvb, hfind, NextResponse.json]
    · simp [commentsItemPUT, hva, hvb, matchedCount, hany, NextResponse.json]
    · simp [commentsItemDELETE, hva, hvb, deletedCount, hany, NextResponse.json]

/-- C7 witness: the valid id `hexB` matches no movie of the empty store and
the item GET answers 404. -/
theorem C7_valid_absent_not_found_witness :
    ObjectId.isValid hexB = true ∧
    (moviesItemGET hexB emptyStore none).resp.body.status = 404 :=
  ⟨by decide,
   (C7_valid_absent_not_found.1 hexB emptyStore (by decide)
      (by intro mv hmv; cases hmv)).1⟩

/-- C8: delete by id is idempotent in effect. For a valid id present in a
store whose theater ids are duplicate-free, the first DELETE answers 200 and
removes the document (no theater with that id remains), and a second DELETE
of the same id answers 404 and leaves the store unchanged. -/
theorem C8_delete_idempotent (id : String) (store : Store)
    (hv : ObjectId.isValid id = true)
    (hnd : (store.theaters.map Theater._id).Nodup)
    (hmem : store.theaters.any (fun t => t._id == ObjectId.make id) = true) :
    (theatersItemDELETE id store none).resp.body.status = 200 ∧
    (theatersItemDELETE id store none).store.theaters =
      store.theaters.eraseP (fun t => t._id == ObjectId.make id) ∧
    ((theatersItemDELETE id store none).store.theaters.any
      (fun t => t._id == ObjectId.make id)) = false ∧
    (theatersItemDELETE id (theatersItemDELETE id store none).store none
      ).resp.body.status = 404 ∧
    (theatersItemDELETE id (theatersItemDELETE id store none).store none
      ).store = (theatersItemDELETE id store none).store := by
  have h1 : theatersItemDELETE id store none =
      ⟨NextResponse.json { status := 200,
                           message := some "Theater successfully deleted" },
       { store with
         theaters := store.theaters.eraseP (fun t => t._id == ObjectId.make id) },
       [.deleteOne "theaters"]⟩ := by
    simp [theatersItemDELETE, hv, deletedCount, hmem]
  have hafter :
      ((store.theaters.eraseP (fun t => t._id == ObjectId.make id)).any
        (fun t => t._id == ObjectId.make id)) = false :=
    eraseP_beq_any_false store.theaters (ObjectId.make id) hnd
  refine ⟨by rw [h1]; rfl, by rw [h1], by rw [h1]; exact hafter, ?_, ?_⟩
  all_goals
    rw [h1]
    simp [theatersItemDELETE, hv, deletedCount, hafter, NextResponse.json]

/-- C8 witness: the two successive DELETE calls on the concrete store holding
the single theater `hexB`. -/
theorem C8_delete_idempotent_witness :
    (theatersItemDELETE hexB wStore none).resp.body.status = 200 ∧
    (theatersItemDELETE hexB (theatersItemDELETE hexB wStore none).store none
      ).resp.body.status = 404 :=
  ⟨(C8_delete_idempotent hexB wStore (by decide) (by decide) (by decide)).1,
   (C8_delete_idempotent hexB wStore (by decide) (by decide) (by decide)
      ).2.2.2.1⟩

/-- C9: every handler catches a throwing step and answers the 500 envelope
whose error field is the thrown message, leaving the store untouched — shown
for the single collection operation of every store-touching handler (reached
under its guard conditions) and for the body-parse failure of the nested
comment PUT. No handler propagates: every handler is a total function into
`HandlerResult`. -/
theorem C9_catch_returns_500 :
    (∀ m store, theatersListGET store (some m) =
      ⟨NextResponse.json (serverError m), store, [.find "theaters"]⟩) ∧
    (∀ m store newId,
      moviesItemPOST store newId (some m) =
        ⟨NextResponse.json (serverError m), store, [.insertOne "movies"]⟩ ∧
      theatersItemPOST store newId (some m) =
        ⟨NextResponse.json (serverError m), store, [.insertOne "theaters"]⟩) ∧
    (∀ m id store, ObjectId.isValid id = true →
      moviesItemGET id store (some m) =
        ⟨NextResponse.json (serverError m), store, [.findOne "movies"]⟩ ∧
      moviesItemPUT id store (some m) =
        ⟨NextResponse.json (serverError m), store, [.updateOne "movies"]⟩ ∧
      moviesItemDELETE id store (some m) =
        ⟨NextResponse.json (serverError m), store, [.deleteOne "movies"]⟩ ∧
      theatersItemGET id store (some m) =
        ⟨NextResponse.json (serverError m), store, [.findOne "theaters"]⟩ ∧
      theatersItemPUT id store (some m) =
        ⟨NextResponse.json (serverError m), store, [.updateOne "theaters"]⟩ ∧
      theatersItemDELETE id store (some m) =
        ⟨NextResponse.json (serverError m), store, [.deleteOne "theaters"]⟩ ∧
      commentsListGET id store (some m) =
        ⟨NextResponse.json (serverError m), store, [.find "comments"]⟩) ∧
    (∀ m a b store, ObjectId.isValid a = true → ObjectId.isValid b = true →
      commentsItemGET a b store (some m) =
        ⟨NextResponse.json (serverError m), store, [.findOne "comments"]⟩ ∧
      (∀ t, commentsItemPUT a b (Except.ok t) store (some m) =
        ⟨NextResponse.json (serverError m), store, [.updateOne "comments"]⟩) ∧
      commentsItemDELETE a b store (some m) =
        ⟨NextResponse.json (serverError m), store, [.deleteOne "comments"]⟩) ∧
    (∀ m a store newId now, ObjectId.isValid a = true →
      commentsItemPOST a "null" store newId now (some m) =
        ⟨NextResponse.json (serverError m), store, [.insertOne "comments"]⟩) ∧
    (∀ m a b store fail, commentsItemPUT a b (Except.error m) store fail =
      ⟨NextResponse.json (serverError m), store, []⟩) := by
  refine ⟨?_, ?_, ?_, ?_, ?_, ?_⟩
  · intro m store
    rfl
  · intro m store newId
    exact ⟨rfl, rfl⟩
  · intro m id store hv
    refine ⟨?_, ?_, ?_, ?_, ?_, ?_, ?_⟩ <;>
      simp [moviesItemGET, moviesItemPUT, moviesItemDELETE, theatersItemGET,
        theatersItemPUT, theatersItemDELETE, commentsListGET, hv]
  · intro m a b store hva hvb
    refine ⟨?_, ?_, ?_⟩ <;>
      intros <;>
      simp [commentsItemGET, commentsItemPUT, commentsItemDELETE, hva, hvb]
  · intro m a store newId now hv
    simp [commentsItemPOST, hv]
  · intro m a b store fail
    rfl

/-- C9 witness: a throwing `findOne` on the movie item GET with the valid id
`hexA`, and a body-parse failure on the nested comment PUT. -/
theorem C9_catch_returns_500_witness :
    (moviesItemGET hexA emptyStore (some "socket closed") =
      ⟨NextResponse.json (serverError "socket closed"), emptyStore,
       [.findOne "movies"]⟩) ∧
    (commentsItemPUT hexA hexB (Except.error "bad json") wStore none =
      ⟨NextResponse.json (serverError "bad json"), wStore, []⟩) :=
  ⟨(C9_catch_returns_500.2.2.1 "socket closed" hexA emptyStore (by decide)).1,
   C9_catch_returns_500.2.2.2.2.2 "bad json" hexA hexB wStore none⟩

/-- C10: when the nested comment PUT matches a comment (the first comment
satisfying the composite filter, with both ids valid, the body parsed and the
store call succeeding), it rewrites only the `text` field of that comment:
its `_id`, `name`, `email`, `movie_id` and `date` are preserved, every other
comment (`l1` before it, `l2` after it) is unchanged, and the `movies` and
`theaters` collections are untouched. -/
theorem C10_comment_put_only_text (a b t : String) (store : Store)
    (l1 l2 : List Comment) (c : Comment)
    (hva : ObjectId.isValid a = true) (hvb : ObjectId.isValid b = true)
    (hsplit : store.comments = l1 ++ c :: l2)
    (hl1 : ∀ x ∈ l1, commentFilter a b x = false)
    (hc : commentFilter a b c = true) :
    commentsItemPUT a b (Except.ok t) store none =
      ⟨NextResponse.json { status := 200,
                           message := some "Comment updated successfully" },
       { store with comments := l1 ++ { c with text := t } :: l2 },
       [.updateOne "comments"]⟩ ∧
    ({ c with text := t })._id = c._id ∧
    ({ c with text := t }).name = c.name ∧
    ({ c with text := t }).email = c.email ∧
    ({ c with text := t }).movie_id = c.movie_id ∧
    ({ c with text := t }).date = c.date := by
  have hany : store.comments.any (commentFilter a b) = true := by
    rw [hsplit]
    simp [hc]
  have hupd :
      updateFirst (commentFilter a b) (fun x => { x with text := t })
        store.comments = l1 ++ { c with text := t } :: l2 := by
    rw [hsplit]
    exact updateFirst_append_match hl1 hc
  refine ⟨?_, rfl, rfl, rfl, rfl, rfl⟩
  simp [commentsItemPUT, hva, hvb, matchedCount, hany, hupd, NextResponse.json]

/-- C10 witness: updating the text of the single comment `wComment` of the
concrete store `wStore`. -/
theorem C10_comment_put_only_text_witness :
    commentsItemPUT hexA hexB (Except.ok "new text") wStore none =
      ⟨NextResponse.json { status := 200,
                           message := some "Comment updated successfully" },
       { wStore with comments := [{ wComment with text := "new text" }] },
       [.updateOne "comments"]⟩ :=
  (C10_comment_put_only_text hexA hexB "new text" wStore [] [] wComment
    (by decide) (by decide) rfl (by intro x hx; cases hx) (by decide)).1
